import Mathlib

/-!
A shallow embedding of the carta-python scripting client's core: the
parameter-validation framework (`carta/validation.py`), the action-dispatch
reply classification (`carta/client.py`, `Session.call_action`) and the
`Macro` wire encoding (`carta/util.py`), together with theorems checking the
natural-language specification against these definitions.

Python values passed to descriptors are modelled by `Value` (strings,
numbers, `None`, lists and the one function object that appears among
`OneOf` options); Python numbers (int and float alike) are modelled by `Rat`.
Exceptions raised by descriptors are modelled by the explicit error type
`VErr` returned through `Except`.
-/

/-- A Python value as seen by the validation framework: a string, a number
(int and float both modelled by `Rat`), `None`, a list, or a function object
(the `lambda v: v.lower()` that `Color` passes positionally into `OneOf`'s
options). -/
inductive Value where
  | str (s : String)
  | num (q : Rat)
  | none
  | list (l : List Value)
  | func

/-- A Python exception as raised by descriptor `validate` methods:
`TypeError`, `ValueError` or `AttributeError`, each carrying its message. -/
inductive VErr where
  | typeError (msg : String)
  | valueError (msg : String)
  | attributeError (msg : String)
deriving DecidableEq

deriving instance DecidableEq for Except

/-- Python `f"{value}"` formatting of a `Value`, used to build exception
messages. Numeric formatting is approximated (`Rat`'s printer instead of
Python's int/float printers); no theorem depends on the numeric or
function-object rendering. -/
def Value.pyStr : Value → String
  | .str s => s
  | .num q => if q.den = 1 then toString q.num else toString q
  | .none => "None"
  | .list _ => "[...]"
  | .func => "<function <lambda>>"

/-- Python `==` between a candidate value and a descriptor option, as used by
the `in` membership tests of `OneOf.validate` and `Boolean.validate`.
List-to-list comparison is modelled as false: no descriptor in the repository
carries a list among its options, so that case is never exercised. -/
def Value.beq : Value → Value → Bool
  | .str a, .str b => a == b
  | .num a, .num b => a == b
  | .none, .none => true
  | .func, .func => true
  | _, _ => false

/-- The shape of a regular expression as used by `String` descriptors in the
repository: either a fixed-length sequence of character classes (the hex
patterns `#[0-9a-f]{6}` and `#[0-9a-f]{3}` expand to this) or one-or-more of
a single character class (`\d+`). -/
inductive RegexForm where
  | fixedSeq (ps : List (Char → Bool))
  | plusCls (p : Char → Bool)

/-- A compiled pattern: the source text (used in descriptions and error
messages) together with its `RegexForm`. -/
structure Regex where
  src : String
  form : RegexForm

/-- Whether character `c` matches the class `p`, under the optional
`re.IGNORECASE` flag: with the flag set, a character also matches if its
lowercase form does (the classes used in the repository are written in
lowercase). -/
def matchChar (ci : Bool) (p : Char → Bool) (c : Char) : Bool :=
  p c || (ci && p c.toLower)

/-- Whether the whole character list `s` matches the regular expression:
`fixedSeq ps` requires one character per class in order; `plusCls p` requires
a nonempty list of characters all in the class. -/
def reFull (ci : Bool) : RegexForm → List Char → Bool
  | .fixedSeq ps, s =>
    ps.length == s.length && (List.zip ps s).all fun pc => matchChar ci pc.1 pc.2
  | .plusCls p, s => !s.isEmpty && s.all (matchChar ci p)

/-- Python `re.search`: the pattern matches somewhere inside `s`, i.e. some
contiguous substring of `s` matches it fully. -/
def reSearch (ci : Bool) (r : RegexForm) (s : List Char) : Bool :=
  (List.range (s.length + 1)).any fun i =>
    (List.range (s.length + 1)).any fun j => reFull ci r ((s.drop i).take j)

/-- Lowercase hexadecimal digit, the class `[0-9a-f]`. -/
def hexDigit (c : Char) : Bool := c.isDigit || ('a' ≤ c && c ≤ 'f')

/-- The pattern `#[0-9a-f]{6}` used by `Color`'s 6-digit hex branch. -/
def hex6 : Regex :=
  ⟨"#[0-9a-f]{6}", .fixedSeq ((fun c => c == '#') :: List.replicate 6 hexDigit)⟩

/-- The pattern `#[0-9a-f]{3}` used by `Color`'s 3-digit hex branch. -/
def hex3 : Regex :=
  ⟨"#[0-9a-f]{3}", .fixedSeq ((fun c => c == '#') :: List.replicate 3 hexDigit)⟩

/-- The pattern `\d+` used by the `hdu` parameters of `Session.open_image`
and `Session.append_image`. -/
def digitPlus : Regex := ⟨"\\d+", .plusCls Char.isDigit⟩

/-- Natural number denoted by a list of decimal digit characters. -/
def natOfDigits (ds : List Char) : Nat :=
  ds.foldl (fun n c => n * 10 + (c.toNat - '0'.toNat)) 0

/-- Python `float(s)` on a decimal string: optional sign, digits with an
optional decimal point (at least one digit overall), and an optional
exponent; surrounding whitespace is accepted. The `inf`/`nan`/underscore
forms Python also accepts are not modelled — no caller in the repository
passes them. Returns `none` where Python raises `ValueError`. -/
def parseFloatChars (cs : List Char) : Option Rat :=
  let cs := (cs.dropWhile Char.isWhitespace).reverse.dropWhile Char.isWhitespace |>.reverse
  let sgn : Bool × List Char :=
    match cs with
    | '+' :: r => (true, r)
    | '-' :: r => (false, r)
    | r => (true, r)
  let ip := sgn.2.span Char.isDigit
  let fp : List Char × List Char :=
    match ip.2 with
    | '.' :: r => r.span Char.isDigit
    | r => ([], r)
  if ip.1.isEmpty && fp.1.isEmpty then none
  else
    let m : Nat := natOfDigits (ip.1 ++ fp.1)
    let signedNum : Int := if sgn.1 then Int.ofNat m else -(Int.ofNat m)
    match fp.2 with
    | [] => some (mkRat signedNum (10 ^ fp.1.length))
    | e :: r =>
      if e == 'e' || e == 'E' then
        let es : Bool × List Char :=
          match r with
          | '+' :: r2 => (true, r2)
          | '-' :: r2 => (false, r2)
          | r2 => (true, r2)
        let ed := es.2.span Char.isDigit
        if ed.1.isEmpty || !ed.2.isEmpty then none
        else
          some (if es.1 then mkRat (signedNum * Int.ofNat (10 ^ natOfDigits ed.1)) (10 ^ fp.1.length)
                else mkRat signedNum (10 ^ (fp.1.length + natOfDigits ed.1)))
      else none

/-- Python `float` applied to a `String` value. -/
def parseFloat? (s : String) : Option Rat := parseFloatChars s.data

/-- Python's type name for a value, used only inside error messages. -/
def Value.typeName : Value → String
  | .str _ => "<class 'str'>"
  | .num _ => "<class 'float'>"
  | .none => "<class 'NoneType'>"
  | .list _ => "<class 'list'>"
  | .func => "<class 'function'>"

/-- The `float(value)` conversion attempted at the top of `Number.validate`:
a number converts to itself, a string is parsed (`ValueError` on failure,
propagated as in the source, where only `TypeError` is caught and
re-raised), and any other value raises the descriptor's `TypeError`. -/
def floatConvert : Value → Except VErr Rat
  | .num q => .ok q
  | .str s =>
    match parseFloat? s with
    | some q => .ok q
    | Option.none => .error (.valueError ("could not convert string to float: " ++ s))
  | v => .error (.typeError (v.pyStr ++ " has type " ++ v.typeName ++ " but a number was expected."))

/-- Python `value < m` where `m` is a number: defined for numeric values,
`TypeError` otherwise (e.g. a string compared against a bound). -/
def cmpLt (v : Value) (m : Rat) : Except VErr Bool :=
  match v with
  | .num q => .ok (decide (q < m))
  | _ => .error (.typeError "unsupported comparison with a number")

/-- Python `value <= m` where `m` is a number. -/
def cmpLe (v : Value) (m : Rat) : Except VErr Bool :=
  match v with
  | .num q => .ok (decide (q ≤ m))
  | _ => .error (.typeError "unsupported comparison with a number")

/-- The lower-bound check of `Number.validate`: with an inclusive bound the
value fails when `value < min`, with an exclusive bound when
`value <= min`. -/
def checkMin (min : Option Rat) (minIncl : Bool) (v : Value) : Except VErr Unit :=
  match min with
  | .none => .ok ()
  | some m =>
    if minIncl then
      match cmpLt v m with
      | .error e => .error e
      | .ok true => .error (.valueError (v.pyStr ++ " is smaller than minimum value " ++ toString m ++ "."))
      | .ok false => .ok ()
    else
      match cmpLe v m with
      | .error e => .error e
      | .ok true => .error (.valueError (v.pyStr ++ " is smaller than or equal to minimum value " ++ toString m ++ "."))
      | .ok false => .ok ()

/-- Python `value > m` where `m` is a number. -/
def cmpGt (v : Value) (m : Rat) : Except VErr Bool :=
  match v with
  | .num q => .ok (decide (q > m))
  | _ => .error (.typeError "unsupported comparison with a number")

/-- Python `value >= m` where `m` is a number. -/
def cmpGe (v : Value) (m : Rat) : Except VErr Bool :=
  match v with
  | .num q => .ok (decide (q ≥ m))
  | _ => .error (.typeError "unsupported comparison with a number")

/-- The upper-bound check of `Number.validate`: with an inclusive bound the
value fails when `value > max`, with an exclusive bound when
`value >= max`. -/
def checkMax (max : Option Rat) (maxIncl : Bool) (v : Value) : Except VErr Unit :=
  match max with
  | .none => .ok ()
  | some m =>
    if maxIncl then
      match cmpGt v m with
      | .error e => .error e
      | .ok true => .error (.valueError (v.pyStr ++ " is greater than maximum value " ++ toString m ++ "."))
      | .ok false => .ok ()
    else
      match cmpGe v m with
      | .error e => .error e
      | .ok true => .error (.valueError (v.pyStr ++ " is greater than or equal to maximum value " ++ toString m ++ "."))
      | .ok false => .ok ()

/-- `Number.validate` from `carta/validation.py`: first the `float(value)`
conversion attempt, then the lower- then upper-bound checks, each performed
against the original value. -/
def numberValidate (min max : Option Rat) (minIncl maxIncl : Bool) (v : Value) : Except VErr Unit :=
  match floatConvert v with
  | .error e => .error e
  | .ok _ =>
    match checkMin min minIncl v with
    | .error e => .error e
    | .ok () => checkMax max maxIncl v

/-- The interval bitmask decoding of `Number.__init__`: `EXCLUDE`,
`INCLUDE_MIN`, `INCLUDE_MAX`, `INCLUDE` are 0, 1, 2, 3 and the two flags are
`interval & INCLUDE_MIN` and `interval & INCLUDE_MAX`. -/
def intervalMinIncluded (interval : Nat) : Bool := interval.land 1 != 0

/-- The second flag of the `Number.__init__` bitmask decoding. -/
def intervalMaxIncluded (interval : Nat) : Bool := interval.land 2 != 0

/-- `String.validate` from `carta/validation.py`: a `TypeError` for
non-strings, then `re.search` of the pattern (if any) over the value. -/
def stringValidate (regex : Option Regex) (ci : Bool) (v : Value) : Except VErr Unit :=
  match v with
  | .str s =>
    match regex with
    | .none => .ok ()
    | some r =>
      if reSearch ci r.form s.data then .ok ()
      else .error (.valueError (s ++ " does not match " ++ r.src))
  | _ => .error (.typeError (v.pyStr ++ " has type " ++ v.typeName ++ " but a string was expected."))

/-- `Boolean.validate` from `carta/validation.py`: `value not in (0, 1)`
raises `TypeError`; Python's `True`/`False` compare equal to 1/0 and are
covered by the numeric values. -/
def booleanValidate (v : Value) : Except VErr Unit :=
  if Value.beq v (.num 0) || Value.beq v (.num 1) then .ok ()
  else .error (.typeError (v.pyStr ++ " is not a boolean value."))

/-- `NoneParameter.validate` from `carta/validation.py`. -/
def noneValidate (v : Value) : Except VErr Unit :=
  match v with
  | .none => .ok ()
  | _ => .error (.valueError (v.pyStr ++ " is not None."))

/-- Join a list of strings with a separator, Python `sep.join(l)`. -/
def joinSep (sep : String) (l : List String) : String := String.intercalate sep l

/-- `OneOf.validate` from `carta/validation.py`: apply the normalizer if one
was provided, then test membership among the options; on failure raise a
`ValueError` naming the descriptor's description. -/
def oneOfValidate (options : List Value) (normalize : Option (Value → Value)) (v : Value) : Except VErr Unit :=
  let v := match normalize with | some f => f v | .none => v
  if options.any (fun o => Value.beq v o) then .ok ()
  else .error (.valueError (v.pyStr ++ " is not " ++ ("one of " ++ joinSep ", " (options.map Value.pyStr))))


/-- Remove every whitespace character, the `re.sub('\s', '', value)` at the
top of `TupleColor.validate`. -/
def stripWS (cs : List Char) : List Char := cs.filter fun c => !c.isWhitespace

/-- Match the function-name head of `TupleColor`'s pattern
`(hsla?|rgba?)\(`: the longest alternative wins (`hsla` before `hsl`,
`rgba` before `rgb`), and the name must be followed immediately by `(`.
Returns the name and the characters after the `(`. -/
def matchFuncHead (cs : List Char) : Option (String × List Char) :=
  if List.isPrefixOf "hsla(".data cs then some ("hsla", cs.drop 5)
  else if List.isPrefixOf "hsl(".data cs then some ("hsl", cs.drop 4)
  else if List.isPrefixOf "rgba(".data cs then some ("rgba", cs.drop 5)
  else if List.isPrefixOf "rgb(".data cs then some ("rgb", cs.drop 4)
  else none

/-- The greedy `(.*)\)` tail of `TupleColor`'s pattern: everything up to the
last `)` (text after it is ignored, as `re.match` does not anchor the end);
`none` when there is no `)` at all. -/
def upToLastParen (cs : List Char) : Option (List Char) :=
  match (cs.reverse.span fun c => c != ')').2 with
  | ')' :: rest => some rest.reverse
  | _ => none

/-- Python `str.split(",")`: splitting an empty string yields `[""]`, and
every comma produces a boundary. -/
def splitCommas : List Char → List (List Char)
  | [] => [[]]
  | c :: rest =>
    if c = ',' then [] :: splitCommas rest
    else
      match splitCommas rest with
      | [] => [[c]]
      | g :: gs => (c :: g) :: gs

/-- `TupleColor._assert_length`. -/
def assertLength (params : List (List Char)) (number : Nat) : Except VErr Unit :=
  if params.length ≠ number then
    .error (.valueError ("expected " ++ toString number ++ " parameters but got " ++ toString params.length ++ "."))
  else .ok ()

/-- `TupleColor._assert_percentage`: the parameter must end in `%` and its
numeric part must parse and lie in [0, 100]. A missing `%` short-circuits
before the `float` call; an unparsable numeric part raises `float`'s own
`ValueError`. -/
def assertPercentage (param : List Char) : Except VErr Unit :=
  if param.getLast? ≠ some '%' then
    .error (.valueError (String.mk param ++ " is not a valid percentage."))
  else
    match parseFloatChars param.dropLast with
    | .none => .error (.valueError ("could not convert string to float: " ++ String.mk param.dropLast))
    | some q =>
      if 0 ≤ q ∧ q ≤ 100 then .ok ()
      else .error (.valueError (String.mk param ++ " is not a valid percentage."))

/-- `TupleColor._assert_between`. -/
def assertBetween (param : List Char) (min max : Rat) : Except VErr Unit :=
  match parseFloatChars param with
  | .none => .error (.valueError ("could not convert string to float: " ++ String.mk param))
  | some q =>
    if min ≤ q ∧ q ≤ max then .ok ()
    else .error (.valueError (String.mk param ++ " is not a number between " ++ toString min ++ " and " ++ toString max ++ "."))

/-- Apply a check to every parameter, propagating the first failure — the
`for p in params` loops of `TupleColor`. -/
def assertAll (check : List Char → Except VErr Unit) : List (List Char) → Except VErr Unit
  | [] => .ok ()
  | p :: ps =>
    match check p with
    | .error e => .error e
    | .ok () => assertAll check ps

/-- `TupleColor._validate_rgb`: exactly three parameters, then either all
percentages or, failing that, all numbers in [0, 255]. -/
def validateRgb (params : List (List Char)) : Except VErr Unit :=
  match assertLength params 3 with
  | .error e => .error e
  | .ok () =>
    match assertAll assertPercentage params with
    | .ok () => .ok ()
    | .error _ =>
      match assertAll (fun p => assertBetween p 0 255) params with
      | .ok () => .ok ()
      | .error _ => .error (.valueError "parameters must either all be percentages or all be numbers between 0 and 255.")

/-- `TupleColor._validate_rgba`. -/
def validateRgba (params : List (List Char)) : Except VErr Unit :=
  match assertLength params 4 with
  | .error e => .error e
  | .ok () =>
    match validateRgb (params.take 3) with
    | .error e => .error e
    | .ok () => assertBetween (params.getD 3 []) 0 1

/-- `TupleColor._validate_hsl`. -/
def validateHsl (params : List (List Char)) : Except VErr Unit :=
  match assertLength params 3 with
  | .error e => .error e
  | .ok () =>
    match assertBetween (params.getD 0 []) 0 360 with
    | .error e => .error e
    | .ok () =>
      match assertPercentage (params.getD 1 []) with
      | .error e => .error e
      | .ok () => assertPercentage (params.getD 2 [])

/-- `TupleColor._validate_hsla`. -/
def validateHsla (params : List (List Char)) : Except VErr Unit :=
  match assertLength params 4 with
  | .error e => .error e
  | .ok () =>
    match validateHsl (params.take 3) with
    | .error e => .error e
    | .ok () => assertBetween (params.getD 3 []) 0 1

/-- The `getattr(self, f"_validate_{func}")` dispatch of
`TupleColor.validate`. -/
def tupleDispatch (func : String) (params : List (List Char)) : Except VErr Unit :=
  if func = "rgb" then validateRgb params
  else if func = "rgba" then validateRgba params
  else if func = "hsl" then validateHsl params
  else validateHsla params

/-- The message text of a `VErr`, Python `f"{e}"`. -/
def VErr.msg : VErr → String
  | .typeError m => m
  | .valueError m => m
  | .attributeError m => m

/-- Uppercase a function name for the error message, Python `func.upper()`. -/
def upper (s : String) : String := String.mk (s.data.map Char.toUpper)

/-- `TupleColor.validate` from `carta/validation.py`: strip whitespace,
match `(hsla?|rgba?)\((.*)\)` from the start (any trailing text after the
last `)` is ignored, as in the source's `re.match` with an unanchored end),
split the captured parameters on commas and dispatch to the per-function
check, wrapping any `TypeError`/`ValueError` it raises. A non-string value
raises the `TypeError` that `re.sub` raises in the source. -/
def tupleColorValidate (v : Value) : Except VErr Unit :=
  match v with
  | .str s =>
    let cs := stripWS s.data
    match matchFuncHead cs with
    | .none => .error (.valueError (String.mk cs ++ " is not an HTML color tuple."))
    | some fr =>
      match upToLastParen fr.2 with
      | .none => .error (.valueError (String.mk cs ++ " is not an HTML color tuple."))
      | some inner =>
        match tupleDispatch fr.1 (splitCommas inner) with
        | .ok () => .ok ()
        | .error e =>
          .error (.valueError (String.mk cs ++ " is not a valid " ++ upper fr.1 ++ " color tuple: " ++ e.msg))
  | _ => .error (.typeError "expected string or bytes-like object")

/-- The 147 HTML color names of `COLORNAMES` in `carta/validation.py`. -/
def COLORNAMES : List String :=
  ["aliceblue", "antiquewhite", "aqua", "aquamarine", "azure", "beige", "bisque", "black", 
   "blanchedalmond", "blue", "blueviolet", "brown", "burlywood", "cadetblue", "chartreuse", 
   "chocolate", "coral", "cornflowerblue", "cornsilk", "crimson", "cyan", "darkblue", 
   "darkcyan", "darkgoldenrod", "darkgray", "darkgrey", "darkgreen", "darkkhaki", 
   "darkmagenta", "darkolivegreen", "darkorange", "darkorchid", "darkred", "darksalmon", 
   "darkseagreen", "darkslateblue", "darkslategray", "darkslategrey", "darkturquoise", 
   "darkviolet", "deeppink", "deepskyblue", "dimgray", "dimgrey", "dodgerblue", "firebrick", 
   "floralwhite", "forestgreen", "fuchsia", "gainsboro", "ghostwhite", "gold", "goldenrod", 
   "gray", "grey", "green", "greenyellow", "honeydew", "hotpink", "indianred", "indigo", 
   "ivory", "khaki", "lavender", "lavenderblush", "lawngreen", "lemonchiffon", "lightblue", 
   "lightcoral", "lightcyan", "lightgoldenrodyellow", "lightgray", "lightgrey", "lightgreen", 
   "lightpink", "lightsalmon", "lightseagreen", "lightskyblue", "lightslategray", 
   "lightslategrey", "lightsteelblue", "lightyellow", "lime", "limegreen", "linen", "magenta", 
   "maroon", "mediumaquamarine", "mediumblue", "mediumorchid", "mediumpurple", 
   "mediumseagreen", "mediumslateblue", "mediumspringgreen", "mediumturquoise", 
   "mediumvioletred", "midnightblue", "mintcream", "mistyrose", "moccasin", "navajowhite", 
   "navy", "oldlace", "olive", "olivedrab", "orange", "orangered", "orchid", "palegoldenrod", 
   "palegreen", "paleturquoise", "palevioletred", "papayawhip", "peachpuff", "peru", "pink", 
   "plum", "powderblue", "purple", "red", "rosybrown", "royalblue", "saddlebrown", "salmon", 
   "sandybrown", "seagreen", "seashell", "sienna", "silver", "skyblue", "slateblue", 
   "slategray", "slategrey", "snow", "springgreen", "steelblue", "tan", "teal", "thistle", 
   "tomato", "turquoise", "violet", "wheat", "white", "whitesmoke", "yellow", "yellowgreen"]
/-- The colormap names set as attributes on `carta.constants.Colormap`;
`Constant(Colormap)` collects exactly these strings as its options. -/
def COLORMAPS : List String :=
  ["copper", "paired", "gist_heat", "brg", "cool", "summer", "OrRd", "tab20c", "purples", 
   "gray", "terrain", "RdPu", "set2", "spring", "gist_yarg", "RdYlBu", "reds", "winter", 
   "Wistia", "rainbow", "dark2", "oranges", "BuPu", "gist_earth", "PuBu", "pink", "PuOr", 
   "pastel2", "PiYG", "gist_ncar", "PuRd", "plasma", "gist_stern", "hot", "PuBuGn", "YlOrRd", 
   "accent", "magma", "set1", "GnBu", "greens", "CMRmap", "gist_rainbow", "prism", "hsv", 
   "Blues", "viridis", "YlGn", "spectral", "RdBu", "tab20", "greys", "flag", "jet", "seismic", 
   "PRGn", "coolwarm", "YlOrBr", "RdYlGn", "bone", "autumn", "BrBG", "gnuplot2", "RdGy", 
   "binary", "gnuplot", "BuGn", "gist_gray", "nipy_spectral", "set3", "tab20b", "pastel1", 
   "afmhot", "cubehelix", "YlGnBu", "ocean", "tab10", "bwr", "inferno"]
/-- The descriptor language of `carta/validation.py` as a closed syntax
tree. `string`, `number`, `boolean`, `noneParam`, `oneOf`, `union`,
`iterableOf` and `tupleColor` carry the constructor arguments of the
corresponding classes; `constant opts fullname` is `Constant(clazz)` after
its `__init__` has collected the class's attribute values `opts` (with
`fullname` the dotted class name used by its overridden `description`).
`Evaluate`, whose checks depend on runtime attributes of the decorated
method's owner, is not modelled — no claim touches it — so `validate` below
takes no `parent` argument. -/
inductive Param where
  | string (regex : Option Regex) (ignorecase : Bool)
  | number (min max : Option Rat) (minIncl maxIncl : Bool)
  | boolean
  | noneParam
  | oneOf (options : List Value) (normalize : Option (Value → Value))
  | constant (options : List Value) (fullname : String)
  | union (options : List Param) (descr : Option String)
  | iterableOf (param : Param)
  | tupleColor

/-- `Number.__init__` with its interval bitmask, producing the descriptor. -/
def numberParam (min max : Option Rat) (interval : Nat) : Param :=
  .number min max (intervalMinIncluded interval) (intervalMaxIncluded interval)

/-- The `description` property of `Number`. -/
def numberDescription (min max : Option Rat) (minIncl maxIncl : Bool) : String :=
  joinSep " "
    (["a number"] ++
      (match min with
       | .none => []
       | some m =>
         ["greater than" ++ (if minIncl then " or equal to" else "") ++ " " ++ toString m] ++
           (match max with | .none => [] | some _ => ["and"])) ++
      (match max with
       | .none => []
       | some m =>
         ["smaller than" ++ (if maxIncl then " or equal to" else "") ++ " " ++ toString m]))

mutual

/-- The `description` property of each descriptor class, as written in
`carta/validation.py` (documentation markup included verbatim). A `Union`
uses its custom description when one was supplied and truthy, and otherwise
joins its options' descriptions with `" or "`. -/
def Param.description : Param → String
  | .string .none _ => "a string"
  | .string (some r) _ => "`a string matching` ``" ++ r.src ++ "``"
  | .number min max minIncl maxIncl => numberDescription min max minIncl maxIncl
  | .boolean => "a boolean"
  | .noneParam => "None"
  | .oneOf opts _ => "one of " ++ joinSep ", " (opts.map Value.pyStr)
  | .constant _ fullname => "`a class property of` :obj:`" ++ fullname ++ "`"
  | .union opts d =>
    match d with
    | some s => if s = "" then joinSep " or " (Param.descriptions opts) else s
    | .none => joinSep " or " (Param.descriptions opts)
  | .iterableOf p => "an iterable of " ++ Param.description p
  | .tupleColor => "an HTML color tuple"

/-- The descriptions of a list of descriptors, in order. -/
def Param.descriptions : List Param → List String
  | [] => []
  | p :: ps => Param.description p :: Param.descriptions ps

end

mutual

/-- `Parameter.validate` of each descriptor class in `carta/validation.py`,
dispatching to the per-class definitions above; `union` and `iterableOf`
recurse through `validateAny` and `validateEach`. A Python string is itself
iterable (character by character), which `iterableOf` reflects; numbers,
`None` and functions raise the `TypeError` Python's `for` raises. -/
def Param.validate : Param → Value → Except VErr Unit
  | .string r ci, v => stringValidate r ci v
  | .number min max minIncl maxIncl, v => numberValidate min max minIncl maxIncl v
  | .boolean, v => booleanValidate v
  | .noneParam, v => noneValidate v
  | .oneOf opts norm, v => oneOfValidate opts norm v
  | .constant opts fullname, v =>
    if opts.any (fun o => Value.beq v o) then .ok ()
    else .error (.valueError (v.pyStr ++ " is not " ++ ("`a class property of` :obj:`" ++ fullname ++ "`")))
  | .union opts d, v =>
    if Param.validateAny opts v then .ok ()
    else .error (.valueError (v.pyStr ++ " is not " ++ Param.description (.union opts d) ++ "."))
  | .iterableOf p, v =>
    match v with
    | .list vs => Param.validateEach p vs
    | .str s => Param.validateEach p (s.data.map fun c => .str (String.mk [c]))
    | w => .error (.typeError (w.pyStr ++ " is not iterable"))
  | .tupleColor, v => tupleColorValidate v
termination_by p _ => (sizeOf p, 0)

/-- The element loop of `IterableOf.validate`: validate each element in
order, propagating the first failure. -/
def Param.validateEach : Param → List Value → Except VErr Unit
  | _, [] => .ok ()
  | p, v :: vs =>
    match Param.validate p v with
    | .error e => .error e
    | .ok () => Param.validateEach p vs
termination_by p vs => (sizeOf p, 1 + vs.length)

/-- The option loop of `Union.validate`: try each option in order (any
exception counts as failure, as the source's bare `except`), reporting
whether some option succeeded. -/
def Param.validateAny : List Param → Value → Bool
  | [], _ => false
  | p :: ps, v =>
    match Param.validate p v with
    | .ok () => true
    | .error _ => Param.validateAny ps v
termination_by ps _ => (sizeOf ps, 0)

end

/-- The `Color` descriptor: a `Union` of the named-color `OneOf`, the two
hex-pattern `String`s and `TupleColor`, with the custom description from the
source. In the source the case-folding function `lambda v: v.lower()` is
passed to `OneOf` as a positional argument, so it lands in `options` (after
the 147 names) and `normalize` stays `None`; the embedding reproduces
that. -/
def Color : Param :=
  .union
    [.oneOf (COLORNAMES.map Value.str ++ [Value.func]) Option.none,
     .string (some hex6) true,
     .string (some hex3) true,
     .tupleColor]
    (some "an HTML color specification")

/-- The unified validation-failure signal `CartaValidationFailed` raised by
the decorator in `carta/validation.py`: either a descriptor error re-raised
as an invalid-parameter failure (the source also strips documentation markup
from the message, a presentational step not modelled), or the
unexpected-keyword failure raised when a keyword has no bound descriptor. -/
inductive CartaValidationFailed where
  | invalidParameter (e : VErr)
  | unexpectedKeyword (key : String)
deriving DecidableEq

/-- The name-to-descriptor map the decorator builds at decoration time:
`{k: v for (k, v) in zip(inspect.getfullargspec(func).args, vargs)}`.
`getfullargspec(func).args` on an undecorated method includes `self` as its
first element, so the zip pairs `self` with the first descriptor. -/
def mkKwMap (argnames : List String) (vargs : List Param) : List (String × Param) :=
  List.zip argnames vargs

/-- The positional loop of the decorator's `newfunc`:
`for param, value in zip(vargs, args): param.validate(value, self)` —
supplied arguments are paired with descriptors in order and the zip
truncates at the shorter list, so unsupplied (defaulted) parameters and
extra arguments beyond the descriptor list are never validated. -/
def validatePositional : List (Param × Value) → Except VErr Unit
  | [] => .ok ()
  | pv :: rest =>
    match Param.validate pv.1 pv.2 with
    | .error e => .error e
    | .ok () => validatePositional rest

/-- The keyword loop of the decorator's `newfunc`: each keyword argument is
looked up in the name-to-descriptor map; a missing name raises the
unexpected-keyword failure, a descriptor error is wrapped as an
invalid-parameter failure. -/
def validateKw (kwvargs : List (String × Param)) : List (String × Value) → Except CartaValidationFailed Unit
  | [] => .ok ()
  | kv :: rest =>
    match kwvargs.find? (fun e => e.1 == kv.1) with
    | Option.none => .error (.unexpectedKeyword kv.1)
    | some e =>
      match Param.validate e.2 kv.2 with
      | .error err => .error (.invalidParameter err)
      | .ok () => validateKw kwvargs rest

/-- The full argument validation performed by `newfunc` before the wrapped
callable runs: the positional loop, then the keyword loop. -/
def validateArgs (vargs : List Param) (kwvargs : List (String × Param))
    (posArgs : List Value) (kwArgs : List (String × Value)) : Except CartaValidationFailed Unit :=
  match validatePositional (List.zip vargs posArgs) with
  | .error e => .error (.invalidParameter e)
  | .ok () => validateKw kwvargs kwArgs

/-- One RPC request sent through `Session.call_action`: the dotted path and
the positional argument list. -/
structure RpcCall where
  path : String
  args : List Value

/-- The decorated callable produced by `validate(...)`: run the argument
validation and only on success invoke the wrapped body (modelled as the list
of RPC calls the body would send to the transport). -/
def runValidated (vargs : List Param) (argnames : List String)
    (body : List Value → List (String × Value) → List RpcCall)
    (posArgs : List Value) (kwArgs : List (String × Value)) :
    Except CartaValidationFailed (List RpcCall) :=
  match validateArgs vargs (mkKwMap argnames vargs) posArgs kwArgs with
  | .error e => .error e
  | .ok () => .ok (body posArgs kwArgs)

/-- The RPC calls that actually reach the transport: none when validation
failed, the body's calls otherwise. -/
def rpcSent (r : Except CartaValidationFailed (List RpcCall)) : List RpcCall :=
  match r with
  | .error _ => []
  | .ok l => l

/-- The descriptor list of `Session.set_colormap`:
`@validate(Constant(Colormap), Boolean())`. -/
def set_colormap_vargs : List Param :=
  [.constant (COLORMAPS.map Value.str) "carta.constants.Colormap", .boolean]

/-- `inspect.getfullargspec` argument names of `Session.set_colormap`
(`self` included, as `getfullargspec` reports it). -/
def set_colormap_argnames : List String := ["self", "colormap", "invert"]

/-- The body of `Session.set_colormap`: two `call_action` requests, one
setting the colormap and one setting the inversion flag. -/
def set_colormap_body (colormap invert : Value) : List RpcCall :=
  [⟨"renderConfig.setColorMap", [colormap]⟩, ⟨"renderConfig.setInverted", [invert]⟩]

/-- `Session.set_colormap` called with one positional argument (`invert`
keeping its default `False`, modelled as the number 0): the decorated
callable around the body. -/
def set_colormap_call (colormap : Value) : Except CartaValidationFailed (List RpcCall) :=
  runValidated set_colormap_vargs set_colormap_argnames
    (fun pos _ => set_colormap_body (pos.getD 0 Value.none) (.num 0)) [colormap] []

/-- `Session.set_colormap` called with `colormap` passed as a keyword
argument (`invert` keeping its default `False`, modelled as the number 0):
the decorated callable validates the keyword arguments against the
decoration-time name-to-descriptor map, and on success the body sends its
two RPC calls with the keyword-bound colormap value. -/
def set_colormap_kwcall (colormap : Value) : Except CartaValidationFailed (List RpcCall) :=
  runValidated set_colormap_vargs set_colormap_argnames
    (fun _ kw =>
      set_colormap_body (((kw.find? fun e => e.1 == "colormap").map Prod.snd).getD Value.none)
        (.num 0))
    [] [("colormap", colormap)]

/-- The descriptor list of `Session.open_image`:
`@validate(String(), String("\d+"))`. -/
def open_image_vargs : List Param :=
  [.string Option.none false, .string (some digitPlus) false]

/-- `inspect.getfullargspec` argument names of `Session.open_image`. -/
def open_image_argnames : List String := ["self", "path", "hdu"]

/-- The structured reply of one RPC call as `Session.call_action` sees it:
the success flag, the server message string and the JSON-encoded response
string ("" meaning no response). -/
structure ActionReply where
  success : Bool
  message : String
  response : String

/-- The classified outcome of `Session.call_action` on a received reply:
a returned value (`ok none` for "no value"), a `CartaActionFailed` or a
`CartaBadResponse`, each carrying its message. -/
inductive CallOutcome (α : Type) where
  | ok : Option α → CallOutcome α
  | actionFailed (msg : String)
  | badResponse (msg : String)

/-- The reply-classification tail of `Session.call_action`
(`carta/client.py` lines 192–208), for a reply that arrived without a
transport error. `decode` stands for `json.loads` (external library code),
`desc` for the `carta_action_description` string built earlier in the
function. A failed reply raises `CartaActionFailed` with the server message;
an empty response raises `CartaBadResponse` if one was expected and returns
no value otherwise; a non-empty response is decoded, a decode failure
raising `CartaBadResponse` with the raw response string (the decoder's own
error text, also interpolated by the source, is not modelled). -/
def call_action_classify {α : Type} (decode : String → Option α) (desc : String)
    (response_expected : Bool) (r : ActionReply) : CallOutcome α :=
  if !r.success then .actionFailed (desc ++ " failed: " ++ r.message)
  else if r.response = "" then
    if response_expected then
      .badResponse (desc ++ " expected a response, but did not receive one.")
    else .ok Option.none
  else
    match decode r.response with
    | some v => .ok (some v)
    | Option.none =>
      .badResponse (desc ++ " received a response which could not be decoded.\nResponse string: " ++ r.response)

/-- The `Macro` of `carta/util.py`: an immutable (target, variable) pair to
be resolved on the remote side. The source attribute `variable` is spelled
`variableName` here because `variable` is a Lean keyword. -/
structure Macro where
  target : String
  variableName : String
deriving DecidableEq

/-- A JSON value, the wire format produced by `CartaEncoder`. -/
inductive JValue where
  | str (s : String)
  | num (q : Rat)
  | bool (b : Bool)
  | null
  | arr (l : List JValue)
  | obj (fields : List (String × JValue))

/-- `CartaEncoder.default` on a `Macro` (`carta/util.py`): the structured
object `{"macroTarget": obj.target, "macroVariable": obj.variable}`. -/
def Macro.encode (m : Macro) : JValue :=
  .obj [("macroTarget", .str m.target), ("macroVariable", .str m.variableName)]

/-- Modelled from the spec: the simulated remote stub's decoding of the
Macro wire form — the frontend that interprets it is not part of this
repository. Per the spec, the wire form is "a structured object with two
string fields identifying a target path and a variable/method name", so the
stub accepts exactly an object with the two string fields `macroTarget` and
`macroVariable` and recovers the pair. -/
def Macro.decode : JValue → Option Macro
  | .obj [(k1, .str t), (k2, .str v)] =>
    if k1 = "macroTarget" ∧ k2 = "macroVariable" then some ⟨t, v⟩ else Option.none
  | _ => Option.none

/-- C1: classification of `call_action` replies — a failed reply raises
`CartaActionFailed` carrying the server message without ever consulting the
decoder; a successful reply with an empty response raises `CartaBadResponse`
when a response was expected and returns no value otherwise; a successful
reply with a non-empty response returns the decoded value, or raises
`CartaBadResponse` carrying the raw response string when decoding fails. -/
theorem call_action_classify_spec {α : Type} (decode : String → Option α) (desc : String)
    (re : Bool) (r : ActionReply) :
    (r.success = false →
      call_action_classify decode desc re r = .actionFailed (desc ++ " failed: " ++ r.message) ∧
      ∀ decode2 : String → Option α,
        call_action_classify decode desc re r = call_action_classify decode2 desc re r) ∧
    (r.success = true → r.response = "" → re = true →
      call_action_classify decode desc re r
        = .badResponse (desc ++ " expected a response, but did not receive one.")) ∧
    (r.success = true → r.response = "" → re = false →
      call_action_classify decode desc re r = .ok Option.none) ∧
    (r.success = true → r.response ≠ "" → ∀ v, decode r.response = some v →
      call_action_classify decode desc re r = .ok (some v)) ∧
    (r.success = true → r.response ≠ "" → decode r.response = Option.none →
      ∃ a b, call_action_classify decode desc re r = .badResponse (a ++ r.response ++ b)) := by
  refine ⟨fun hs => ?_, fun hs he hr => ?_, fun hs he hr => ?_,
    fun hs he v hv => ?_, fun hs he hv => ?_⟩
  · constructor
    · simp [call_action_classify, hs]
    · intro decode2
      simp [call_action_classify, hs]
  · simp [call_action_classify, hs, he, hr]
  · simp [call_action_classify, hs, he, hr]
  · simp [call_action_classify, hs, he, hv]
  · refine ⟨desc ++ " received a response which could not be decoded.\nResponse string: ", "", ?_⟩
    simp [call_action_classify, hs, he, hv]

/-- Witness for `call_action_classify_spec` at concrete replies, one per
branch of the classification. -/
theorem call_action_classify_spec_witness :
    (call_action_classify (fun s => if s = "42" then some 42 else Option.none) "d" true
        ⟨false, "boom", "x"⟩ = .actionFailed ("d" ++ " failed: " ++ "boom")) ∧
    (call_action_classify (fun s => if s = "42" then some 42 else Option.none) "d" true
        ⟨true, "", ""⟩ = .badResponse ("d" ++ " expected a response, but did not receive one.")) ∧
    (call_action_classify (fun s => if s = "42" then some 42 else Option.none) "d" false
        ⟨true, "", ""⟩ = .ok Option.none) ∧
    (call_action_classify (fun s => if s = "42" then some 42 else Option.none) "d" true
        ⟨true, "m", "42"⟩ = .ok (some 42)) :=
  ⟨((call_action_classify_spec _ "d" true ⟨false, "boom", "x"⟩).1 rfl).1,
   (call_action_classify_spec _ "d" true ⟨true, "", ""⟩).2.1 rfl rfl rfl,
   (call_action_classify_spec _ "d" false ⟨true, "", ""⟩).2.2.1 rfl rfl rfl,
   (call_action_classify_spec _ "d" true ⟨true, "m", "42"⟩).2.2.2.1 rfl (by decide) 42 (by decide)⟩

/-- C8: argument serialization encodes a `Macro` as the structured object
with exactly the two string fields `macroTarget` and `macroVariable`, and
the simulated remote stub's decoding of that wire form recovers the
original (target, variable) pair exactly. -/
theorem macro_roundtrip (t v : String) :
    Macro.encode ⟨t, v⟩ = .obj [("macroTarget", .str t), ("macroVariable", .str v)] ∧
    Macro.decode (Macro.encode ⟨t, v⟩) = some ⟨t, v⟩ := by
  exact ⟨rfl, by simp [Macro.encode, Macro.decode]⟩

/-- The interval described by the spec's words for a `Number` descriptor: an
absent bound is unconstrained, an inclusive bound admits its boundary value,
an exclusive bound excludes it. Stated from the spec, to be compared with
the source-derived `numberValidate`. -/
def specInterval (min max : Option Rat) (minIncl maxIncl : Bool) (q : Rat) : Prop :=
  (∀ m, min = some m → (if minIncl then m ≤ q else m < q)) ∧
  (∀ m, max = some m → (if maxIncl then q ≤ m else q < m))

/-- The lower-bound check accepts a number exactly when it satisfies the
described lower constraint. -/
theorem checkMin_num_ok_iff (min : Option Rat) (minIncl : Bool) (q : Rat) :
    checkMin min minIncl (.num q) = .ok () ↔
      ∀ m, min = some m → (if minIncl then m ≤ q else m < q) := by
  rcases min with _ | m
  · simp [checkMin]
  · cases minIncl
    · by_cases h : q ≤ m
      · simp [checkMin, cmpLe, h, not_lt.mpr h]
      · simp [checkMin, cmpLe, h, not_le.mp h]
    · by_cases h : q < m
      · simp [checkMin, cmpLt, h, not_le.mpr h]
      · simp [checkMin, cmpLt, h, not_lt.mp h]

/-- The upper-bound check accepts a number exactly when it satisfies the
described upper constraint. -/
theorem checkMax_num_ok_iff (max : Option Rat) (maxIncl : Bool) (q : Rat) :
    checkMax max maxIncl (.num q) = .ok () ↔
      ∀ m, max = some m → (if maxIncl then q ≤ m else q < m) := by
  rcases max with _ | m
  · simp [checkMax]
  · cases maxIncl
    · by_cases h : m ≤ q
      · simp [checkMax, cmpGe, h, not_lt.mpr h]
      · simp [checkMax, cmpGe, h, not_le.mp h]
    · by_cases h : m < q
      · simp [checkMax, cmpGt, gt_iff_lt, h, not_le.mpr h]
      · simp [checkMax, cmpGt, gt_iff_lt, h, not_lt.mp h]

/-- On a number, the lower-bound check either succeeds or raises a
`ValueError`. -/
theorem checkMin_num_cases (min : Option Rat) (minIncl : Bool) (q : Rat) :
    checkMin min minIncl (.num q) = .ok () ∨
      ∃ msg, checkMin min minIncl (.num q) = .error (.valueError msg) := by
  rcases min with _ | m
  · left; simp [checkMin]
  · cases minIncl
    · by_cases h : q ≤ m
      · right
        exact ⟨(Value.num q).pyStr ++ " is smaller than or equal to minimum value " ++ toString m ++ ".",
          by simp [checkMin, cmpLe, h]⟩
      · left; simp [checkMin, cmpLe, h]
    · by_cases h : q < m
      · right
        exact ⟨(Value.num q).pyStr ++ " is smaller than minimum value " ++ toString m ++ ".",
          by simp [checkMin, cmpLt, h]⟩
      · left; simp [checkMin, cmpLt, h]

/-- On a number, the upper-bound check either succeeds or raises a
`ValueError`. -/
theorem checkMax_num_cases (max : Option Rat) (maxIncl : Bool) (q : Rat) :
    checkMax max maxIncl (.num q) = .ok () ∨
      ∃ msg, checkMax max maxIncl (.num q) = .error (.valueError msg) := by
  rcases max with _ | m
  · left; simp [checkMax]
  · cases maxIncl
    · by_cases h : m ≤ q
      · right
        exact ⟨(Value.num q).pyStr ++ " is greater than or equal to maximum value " ++ toString m ++ ".",
          by simp [checkMax, cmpGe, h]⟩
      · left; simp [checkMax, cmpGe, h]
    · by_cases h : m < q
      · right
        exact ⟨(Value.num q).pyStr ++ " is greater than maximum value " ++ toString m ++ ".",
          by simp [checkMax, cmpGt, gt_iff_lt, h]⟩
      · left; simp [checkMax, cmpGt, gt_iff_lt, h]

/-- C4: a `Number` descriptor accepts a numeric value exactly when the value
lies in the described interval (absent bound: unconstrained; inclusive
bound: boundary accepted; exclusive bound: boundary rejected), and raises a
`ValueError` otherwise, for every combination of the inclusivity flags. -/
theorem number_interval_spec (min max : Option Rat) (minIncl maxIncl : Bool) (q : Rat) :
    (Param.validate (.number min max minIncl maxIncl) (.num q) = .ok () ↔
      specInterval min max minIncl maxIncl q) ∧
    (¬ specInterval min max minIncl maxIncl q →
      ∃ msg, Param.validate (.number min max minIncl maxIncl) (.num q)
        = .error (.valueError msg)) := by
  have hval : Param.validate (.number min max minIncl maxIncl) (.num q)
      = numberValidate min max minIncl maxIncl (.num q) := by
    simp [Param.validate]
  constructor
  · rw [hval]
    unfold numberValidate
    simp only [floatConvert]
    rcases checkMin_num_cases min minIncl q with hmin | ⟨msg, hmin⟩
    · rw [hmin]
      rw [specInterval.eq_def]
      rw [← checkMin_num_ok_iff (q := q), ← checkMax_num_ok_iff (q := q)]
      simp [hmin]
    · rw [hmin]
      constructor
      · intro h; exact absurd h (by simp)
      · intro h
        have := (checkMin_num_ok_iff min minIncl q).mpr h.1
        rw [this] at hmin; exact absurd hmin (by simp)
  · intro hni
    rw [hval]
    unfold numberValidate
    simp only [floatConvert]
    rcases checkMin_num_cases min minIncl q with hmin | ⟨msg, hmin⟩
    · rcases checkMax_num_cases max maxIncl q with hmax | ⟨msg, hmax⟩
      · exact absurd ⟨(checkMin_num_ok_iff min minIncl q).mp hmin,
          (checkMax_num_ok_iff max maxIncl q).mp hmax⟩ hni
      · exact ⟨msg, by rw [hmin, hmax]⟩
    · exact ⟨msg, by rw [hmin]⟩

/-- Witness for `number_interval_spec`: with the bound `min=0` exclusive,
the boundary 0 is rejected with a `ValueError` and 1/10000 (the spec's
0.0001) is accepted. -/
theorem number_interval_spec_witness :
    (Param.validate (.number (some 0) Option.none false false) (.num (mkRat 1 10000)) = .ok ()) ∧
    (∃ msg, Param.validate (.number (some 0) Option.none false false) (.num 0)
      = .error (.valueError msg)) :=
  ⟨(number_interval_spec (some 0) Option.none false false (mkRat 1 10000)).1.mpr
      ⟨by intro m hm; cases hm; norm_num [mkRat], by intro m hm; cases hm⟩,
   (number_interval_spec (some 0) Option.none false false 0).2
      (by intro h; have := h.1 0 rfl; simp at this)⟩

/-- The option loop of `Union.validate` reports success exactly when some
option validates the value. -/
theorem validateAny_iff (opts : List Param) (v : Value) :
    Param.validateAny opts v = true ↔ ∃ p ∈ opts, Param.validate p v = .ok () := by
  induction opts with
  | nil => simp [Param.validateAny]
  | cons p ps ih =>
    cases h : Param.validate p v with
    | error e =>
      simp only [Param.validateAny, h, List.mem_cons]
      rw [ih]
      constructor
      · rintro ⟨p2, hp2, hv2⟩
        exact ⟨p2, Or.inr hp2, hv2⟩
      · rintro ⟨p2, hp2 | hp2, hv2⟩
        · subst hp2; rw [hv2] at h; cases h
        · exact ⟨p2, hp2, hv2⟩
    | ok u =>
      cases u
      simp only [Param.validateAny, h, List.mem_cons]
      exact ⟨fun _ => ⟨p, Or.inl rfl, h⟩, fun _ => trivial⟩

/-- C6: a `Union` descriptor accepts a value exactly when at least one of
its options does (options being tried in declaration order, with the first
success ending the loop); when every option fails it raises a `ValueError`
whose message carries the union's aggregate description — the options'
descriptions joined with `" or "` by default, or the custom description when
a (non-empty) one was supplied. -/
theorem union_spec (opts : List Param) (d : Option String) (v : Value) :
    (Param.validate (.union opts d) v = .ok () ↔ ∃ p ∈ opts, Param.validate p v = .ok ()) ∧
    ((∀ p ∈ opts, Param.validate p v ≠ .ok ()) →
      Param.validate (.union opts d) v
        = .error (.valueError (v.pyStr ++ " is not " ++ Param.description (.union opts d) ++ "."))) ∧
    (∀ s, d = some s → s ≠ "" → Param.description (.union opts d) = s) ∧
    (d = Option.none → Param.description (.union opts d) = joinSep " or " (Param.descriptions opts)) := by
  refine ⟨?_, fun hall => ?_, fun s hd hs => ?_, fun hd => ?_⟩
  · rw [← validateAny_iff]
    cases h : Param.validateAny opts v <;> simp [Param.validate, h]
  · have h : Param.validateAny opts v = false := by
      cases h : Param.validateAny opts v
      · rfl
      · rcases (validateAny_iff opts v).mp h with ⟨p, hp, hv⟩
        exact absurd hv (hall p hp)
    simp [Param.validate, h]
  · subst hd; simp [Param.description, hs]
  · subst hd; simp [Param.description]

/-- Witness for `union_spec`: a union of `Boolean` and `NoneParameter` on
the string value "x" — both options fail and the raised message carries the
default aggregate description "a boolean or None". -/
theorem union_spec_witness :
    Param.validate (.union [Param.boolean, Param.noneParam] Option.none) (.str "x")
      = .error (.valueError ("x is not a boolean or None.")) := by
  have hfail : ∀ p ∈ [Param.boolean, Param.noneParam],
      Param.validate p (.str "x") ≠ .ok () := by
    intro p hp
    rcases List.mem_cons.mp hp with h | h
    · subst h; simp only [Param.validate]; decide
    · rcases List.mem_cons.mp h with h2 | h2
      · subst h2; simp only [Param.validate]; decide
      · cases h2
  have := (union_spec [Param.boolean, Param.noneParam] Option.none (.str "x")).2.1 hfail
  rw [this]
  simp only [Value.pyStr, Param.description, Param.descriptions, joinSep]
  rfl

/-- The element loop of `IterableOf.validate` stops at the first failing
element and propagates exactly its error, whatever elements follow. -/
theorem validateEach_firstError (p : Param) (vs1 : List Value) (v : Value) (e : VErr)
    (vs2 : List Value) (h1 : ∀ x ∈ vs1, Param.validate p x = .ok ())
    (hv : Param.validate p v = .error e) :
    Param.validateEach p (vs1 ++ v :: vs2) = .error e := by
  induction vs1 with
  | nil => simp only [List.nil_append, Param.validateEach, hv]
  | cons x xs ih =>
    have hx : Param.validate p x = .ok () := h1 x (List.mem_cons_self x xs)
    simp only [List.cons_append, Param.validateEach, hx]
    exact ih fun y hy => h1 y (List.mem_cons_of_mem x hy)

/-- C7: `IterableOf` validates the elements of an ordered sequence in order,
raising at the first failing element (whatever follows it is never able to
change the outcome), and accepts the empty sequence unconditionally. -/
theorem iterableOf_spec :
    (∀ p : Param, Param.validate (.iterableOf p) (.list []) = .ok ()) ∧
    (∀ (p : Param) (vs1 : List Value) (v : Value) (e : VErr) (vs2 : List Value),
      (∀ x ∈ vs1, Param.validate p x = .ok ()) → Param.validate p v = .error e →
      Param.validate (.iterableOf p) (.list (vs1 ++ v :: vs2)) = .error e) := by
  constructor
  · intro p
    simp [Param.validate, Param.validateEach]
  · intro p vs1 v e vs2 h1 hv
    simp only [Param.validate]
    exact validateEach_firstError p vs1 v e vs2 h1 hv

/-- Witness for `iterableOf_spec`: an iterable of booleans over
`[0, "x", 5]` fails with the error of the middle element, and the empty
iterable is accepted. -/
theorem iterableOf_spec_witness :
    Param.validate (.iterableOf .boolean) (.list []) = .ok () ∧
    Param.validate (.iterableOf .boolean) (.list [.num 0, .str "x", .num 5])
      = .error (.typeError "x is not a boolean value.") := by
  constructor
  · exact iterableOf_spec.1 .boolean
  · have := iterableOf_spec.2 .boolean [.num 0] (.str "x")
      (.typeError "x is not a boolean value.") [.num 5]
      (by
        intro x hx
        rcases List.mem_cons.mp hx with h | h
        · subst h; simp only [Param.validate]; decide
        · cases h)
      (by simp only [Param.validate]; decide)
    exact this

/-- The positional loop of the decorator succeeds exactly when every
supplied (descriptor, argument) pair validates. -/
theorem validatePositional_ok_iff (l : List (Param × Value)) :
    validatePositional l = .ok () ↔ ∀ pv ∈ l, Param.validate pv.1 pv.2 = .ok () := by
  induction l with
  | nil => simp [validatePositional]
  | cons pv rest ih =>
    cases h : Param.validate pv.1 pv.2 with
    | error e => simp [validatePositional, h]
    | ok u => cases u; simp [validatePositional, h, ih]

/-- An `Except Unit` result that is not a success is some error. -/
theorem error_of_ne_ok {ε : Type} (r : Except ε Unit) (h : r ≠ .ok ()) :
    ∃ e, r = .error e := by
  cases r with
  | error e => exact ⟨e, rfl⟩
  | ok u => cases u; exact absurd rfl h

/-- When any supplied positional argument fails its bound descriptor, the
decorated callable raises a validation failure before the wrapped body runs,
so no RPC call reaches the transport; in particular `set_colormap` with a
string that is not a member of the colormap table, passed positionally,
fails validation and sends zero RPC calls. Keyword invocations are not
covered: the decoration-time name-to-descriptor map pairs each name with
the previous parameter's descriptor, and a keyword argument checked against
the wrong descriptor can pass validation. -/
theorem validation_blocks_rpc :
    (∀ (vargs : List Param) (argnames : List String)
       (body : List Value → List (String × Value) → List RpcCall)
       (posArgs : List Value) (kwArgs : List (String × Value)),
      (∃ pv ∈ List.zip vargs posArgs, Param.validate pv.1 pv.2 ≠ .ok ()) →
      (∃ e, runValidated vargs argnames body posArgs kwArgs = .error e) ∧
      rpcSent (runValidated vargs argnames body posArgs kwArgs) = []) ∧
    ((set_colormap_call (.str "notacolormap")).isOk = false) ∧
    (rpcSent (set_colormap_call (.str "notacolormap")) = []) := by
  have gen : ∀ (vargs : List Param) (argnames : List String)
      (body : List Value → List (String × Value) → List RpcCall)
      (posArgs : List Value) (kwArgs : List (String × Value)),
      (∃ pv ∈ List.zip vargs posArgs, Param.validate pv.1 pv.2 ≠ .ok ()) →
      (∃ e, runValidated vargs argnames body posArgs kwArgs = .error e) ∧
      rpcSent (runValidated vargs argnames body posArgs kwArgs) = [] := by
    rintro vargs argnames body posArgs kwArgs ⟨pv, hmem, hne⟩
    have hpos : validatePositional (List.zip vargs posArgs) ≠ .ok () := by
      intro hok
      exact hne ((validatePositional_ok_iff _).mp hok pv hmem)
    rcases error_of_ne_ok _ hpos with ⟨e0, he0⟩
    have hrun : runValidated vargs argnames body posArgs kwArgs
        = .error (.invalidParameter e0) := by
      unfold runValidated validateArgs
      rw [he0]
    exact ⟨⟨_, hrun⟩, by rw [hrun]; rfl⟩
  have hfail : Param.validate
      (.constant (COLORMAPS.map Value.str) "carta.constants.Colormap")
      (.str "notacolormap") ≠ .ok () := by
    simp only [Param.validate]
    decide
  have hx := gen set_colormap_vargs set_colormap_argnames
    (fun pos _ => set_colormap_body (pos.getD 0 Value.none) (.num 0))
    [.str "notacolormap"] []
    ⟨(.constant (COLORMAPS.map Value.str) "carta.constants.Colormap", .str "notacolormap"),
      by simp [set_colormap_vargs], hfail⟩
  refine ⟨gen, ?_, ?_⟩
  · rcases hx.1 with ⟨e, he⟩
    unfold set_colormap_call
    rw [he]
    rfl
  · unfold set_colormap_call
    exact hx.2

/-- Witness for `validation_blocks_rpc`: a decorated callable whose single
`Boolean`-validated parameter receives a string sends no RPC calls. -/
theorem validation_blocks_rpc_witness :
    rpcSent (runValidated [Param.boolean] ["self", "b"] (fun _ _ => [⟨"p", []⟩])
      [.str "z"] []) = [] :=
  (validation_blocks_rpc.1 [Param.boolean] ["self", "b"] (fun _ _ => [⟨"p", []⟩])
    [.str "z"] []
    ⟨(Param.boolean, .str "z"), by simp, by simp only [Param.validate]; decide⟩).2

/-- C9: parameters that are not explicitly passed are never validated —
`open_image` called with only a path succeeds for every path string even
though its `hdu` default `""` is rejected by the bound descriptor
`String("\d+")` whenever it is passed explicitly. -/
theorem defaults_not_validated (s : String) :
    (validateArgs open_image_vargs (mkKwMap open_image_argnames open_image_vargs)
      [.str s] [] = .ok ()) ∧
    (Param.validate (.string (some digitPlus) false) (.str "")
      = .error (.valueError (" does not match \\d+"))) ∧
    (∃ e, validateArgs open_image_vargs (mkKwMap open_image_argnames open_image_vargs)
      [.str s, .str ""] [] = .error e) := by
  have hd : Param.validate (.string (some digitPlus) false) (.str "")
      = .error (.valueError (" does not match \\d+")) := by
    simp only [Param.validate]
    decide
  refine ⟨?_, hd, ?_⟩
  · simp [validateArgs, open_image_vargs, validatePositional, validateKw,
      Param.validate, stringValidate]
  · refine ⟨.invalidParameter (.valueError (" does not match \\d+")), ?_⟩
    simp only [validateArgs, open_image_vargs, List.zip_cons_cons, List.zip_nil_right,
      validatePositional, Param.validate, stringValidate, hd]

/-- Witness for `defaults_not_validated` at a concrete path. -/
theorem defaults_not_validated_witness :
    validateArgs open_image_vargs (mkKwMap open_image_argnames open_image_vargs)
      [.str "/d/foo.fits"] [] = .ok () :=
  (defaults_not_validated "/d/foo.fits").1

/-- C2 (as the code behaves): the decorator's name-to-descriptor map is
built by zipping `inspect.getfullargspec(func).args` — which includes
`self` — with the descriptors, so `self` absorbs the first descriptor and
every keyword is paired with the descriptor of the parameter before it.
For `set_colormap` the map's keys are `self` and `colormap` (no `invert`),
the colormap table accepts `"viridis"`, yet passing `colormap="viridis"` as
a keyword fails against the misaligned `Boolean()` descriptor, and passing
`invert` as a keyword is reported as an unexpected keyword. This contradicts
the decorator's own docstring, which says the `self` parameter "is therefore
ignored by the decorator". -/
theorem kwarg_map_misaligned :
    ((mkKwMap set_colormap_argnames set_colormap_vargs).map Prod.fst
      = ["self", "colormap"]) ∧
    (Param.validate (.constant (COLORMAPS.map Value.str) "carta.constants.Colormap")
      (.str "viridis") = .ok ()) ∧
    (validateArgs set_colormap_vargs (mkKwMap set_colormap_argnames set_colormap_vargs)
      [] [("colormap", .str "viridis")]
      = .error (.invalidParameter (.typeError "viridis is not a boolean value."))) ∧
    (validateArgs set_colormap_vargs (mkKwMap set_colormap_argnames set_colormap_vargs)
      [] [("invert", .num 1)]
      = .error (.unexpectedKeyword "invert")) := by
  refine ⟨by simp [mkKwMap, set_colormap_argnames, set_colormap_vargs], ?_, ?_, ?_⟩
  · simp only [Param.validate]
    decide
  · have hfind : List.find? (fun e => e.1 == "colormap")
        (mkKwMap set_colormap_argnames set_colormap_vargs)
        = some ("colormap", Param.boolean) := by
      simp [mkKwMap, set_colormap_argnames, set_colormap_vargs, List.find?]
    have hbool : Param.validate Param.boolean (.str "viridis")
        = .error (.typeError "viridis is not a boolean value.") := by
      simp only [Param.validate]
      decide
    simp only [validateArgs, List.zip_nil_right, validatePositional, validateKw,
      hfind, hbool]
  · have hfind : List.find? (fun e => e.1 == "invert")
        (mkKwMap set_colormap_argnames set_colormap_vargs)
        = Option.none := by
      simp [mkKwMap, set_colormap_argnames, set_colormap_vargs, List.find?]
    simp only [validateArgs, List.zip_nil_right, validatePositional, validateKw, hfind]

/-- C5 (as the code behaves): `Color` accepts the lowercase named color,
both hex forms and the four tuple forms, and rejects the three malformed
strings — but it also rejects `"RED"`. In the source the case-folding
function `lambda v: v.lower()` is passed to `OneOf` positionally, so it is
stored as one more option instead of as the `normalize` keyword argument,
and named-color matching is case-sensitive, contradicting the documented
intent of a case-insensitive 147-name table. -/
theorem color_case_fold_bug :
    (Param.validate Color (.str "red") = .ok ()) ∧
    (Param.validate Color (.str "#ff0000") = .ok ()) ∧
    (Param.validate Color (.str "#f00") = .ok ()) ∧
    (Param.validate Color (.str "rgb(255,0,0)") = .ok ()) ∧
    (Param.validate Color (.str "rgb(100%,0%,0%)") = .ok ()) ∧
    (Param.validate Color (.str "hsl(0,100%,50%)") = .ok ()) ∧
    (Param.validate Color (.str "rgba(0,0,0,0.5)") = .ok ()) ∧
    ((Param.validate Color (.str "rgb(255,0)")).isOk = false) ∧
    ((Param.validate Color (.str "rgb(300,0,0)")).isOk = false) ∧
    ((Param.validate Color (.str "notacolor")).isOk = false) ∧
    ((Param.validate Color (.str "RED")).isOk = false) := by
  refine ⟨?_, ?_, ?_, ?_, ?_, ?_, ?_, ?_, ?_, ?_, ?_⟩ <;>
    (simp only [Color, Param.validate, Param.validateAny]; decide)

/-- Python `re.search` succeeds exactly when some contiguous substring
matches the pattern fully. -/
theorem reSearch_iff (ci : Bool) (r : RegexForm) (s : List Char) :
    reSearch ci r s = true ↔
      ∃ pre mid post, s = pre ++ mid ++ post ∧ reFull ci r mid = true := by
  unfold reSearch
  simp only [List.any_eq_true, List.mem_range]
  constructor
  · rintro ⟨i, hi, j, hj, hm⟩
    refine ⟨s.take i, (s.drop i).take j, (s.drop i).drop j, ?_, hm⟩
    rw [List.append_assoc, List.take_append_drop, List.take_append_drop]
  · rintro ⟨pre, mid, post, hs, hm⟩
    subst hs
    refine ⟨pre.length, ?_, mid.length, ?_, ?_⟩
    · simp [List.length_append]
      omega
    · simp [List.length_append]
      omega
    · have h1 : (pre ++ (mid ++ post)).drop pre.length = mid ++ post := List.drop_left pre (mid ++ post)
      rw [List.append_assoc, h1, List.take_left]
      exact hm

/-- C10: `String.validate` uses `re.search`, so its pattern matches anywhere
inside the value (substring search, not full match); consequently `Color`
accepts every string containing `#` followed by six — or three —
hexadecimal digits as a substring, such as `"#ff0000extra"` and
`"xx#f00yy"`. -/
theorem string_search_substring :
    (∀ (r : Regex) (ci : Bool) (s : String),
      stringValidate (some r) ci (.str s) = .ok () ↔
        ∃ pre mid post, s.data = pre ++ mid ++ post ∧ reFull ci r.form mid = true) ∧
    (∀ (s : String) (pre mid post : List Char),
      s.data = pre ++ mid ++ post → reFull true hex6.form mid = true →
      Param.validate Color (.str s) = .ok ()) ∧
    (∀ (s : String) (pre mid post : List Char),
      s.data = pre ++ mid ++ post → reFull true hex3.form mid = true →
      Param.validate Color (.str s) = .ok ()) ∧
    (Param.validate Color (.str "#ff0000extra") = .ok ()) ∧
    (Param.validate Color (.str "xx#f00yy") = .ok ()) := by
  have hiff : ∀ (r : Regex) (ci : Bool) (s : String),
      stringValidate (some r) ci (.str s) = .ok () ↔
        ∃ pre mid post, s.data = pre ++ mid ++ post ∧ reFull ci r.form mid = true := by
    intro r ci s
    rw [← reSearch_iff]
    cases h : reSearch ci r.form s.data <;> simp [stringValidate, h]
  have hbranch : ∀ (rx : Regex) (s : String), Param.string (some rx) true ∈
        [Param.oneOf (COLORNAMES.map Value.str ++ [Value.func]) Option.none,
         Param.string (some hex6) true, Param.string (some hex3) true, Param.tupleColor] →
      stringValidate (some rx) true (.str s) = .ok () →
      Param.validate Color (.str s) = .ok () := by
    intro rx s hmem hok
    have hv : Param.validate (Param.string (some rx) true) (.str s) = .ok () := by
      simp only [Param.validate]
      exact hok
    have hany := (validateAny_iff
      [Param.oneOf (COLORNAMES.map Value.str ++ [Value.func]) Option.none,
       Param.string (some hex6) true, Param.string (some hex3) true, Param.tupleColor]
      (.str s)).mpr ⟨_, hmem, hv⟩
    simp only [Color, Param.validate, hany]
    rfl
  refine ⟨hiff, ?_, ?_, ?_, ?_⟩
  · intro s pre mid post hs hm
    exact hbranch hex6 s (by simp)
      ((hiff hex6 true s).mpr ⟨pre, mid, post, hs, hm⟩)
  · intro s pre mid post hs hm
    exact hbranch hex3 s (by simp)
      ((hiff hex3 true s).mpr ⟨pre, mid, post, hs, hm⟩)
  · simp only [Color, Param.validate, Param.validateAny]
    decide
  · simp only [Color, Param.validate, Param.validateAny]
    decide

/-- Witness for `string_search_substring`: the substring decomposition of
`"#ff0000extra"` around its hex triplet makes `Color` accept it. -/
theorem string_search_substring_witness :
    Param.validate Color (.str "#ff0000extra") = .ok () :=
  string_search_substring.2.1 "#ff0000extra" [] "#ff0000".data "extra".data
    (by decide) (by decide)

/-- C3 (as the code behaves): the promised ordering fails for keyword
argument lists. Calling `set_colormap(colormap=1)` supplies an argument
that fails the `Constant(Colormap)` descriptor bound to the `colormap`
parameter, yet no validation failure is raised before the wrapped body
runs: the decoration-time map built from `getfullargspec(func).args`
(which includes `self`) pairs `colormap` with the next descriptor,
`Boolean()`, which accepts 1, so validation succeeds and both RPC calls of
the body reach the transport. -/
theorem set_colormap_kwarg_sends_rpc :
    ((Param.validate (.constant (COLORMAPS.map Value.str) "carta.constants.Colormap")
      (.num 1)).isOk = false) ∧
    ((set_colormap_kwcall (.num 1)).isOk = true) ∧
    ((rpcSent (set_colormap_kwcall (.num 1))).map RpcCall.path
      = ["renderConfig.setColorMap", "renderConfig.setInverted"]) ∧
    ((rpcSent (set_colormap_kwcall (.num 1))).length = 2) := by
  have hconst : (Param.validate
      (.constant (COLORMAPS.map Value.str) "carta.constants.Colormap")
      (.num 1)).isOk = false := by
    simp only [Param.validate]
    decide
  have hfind : List.find? (fun e => e.1 == "colormap")
      (mkKwMap set_colormap_argnames set_colormap_vargs)
      = some ("colormap", Param.boolean) := by
    simp [mkKwMap, set_colormap_argnames, set_colormap_vargs, List.find?]
  have hbool : Param.validate Param.boolean (.num 1) = .ok () := by
    simp only [Param.validate]
    decide
  have hrun : set_colormap_kwcall (.num 1)
      = .ok (set_colormap_body (.num 1) (.num 0)) := by
    unfold set_colormap_kwcall runValidated validateArgs
    simp only [List.zip_nil_right, validatePositional, validateKw, hfind, hbool]
    rfl
  refine ⟨hconst, ?_, ?_, ?_⟩ <;> rw [hrun] <;> rfl
